import Mathlib

/-!
Verification of the Stackdriver logrus formatter (`formatter.go`).

The Go source is shallowly embedded below.  Go `map[string]interface{}`
values are modelled as association lists over an inductive `Value` type
covering the dynamic values the formatter inspects (strings, error
values, integers and nested string-keyed maps).  The runtime call stack
consulted by `errorOrigin` is modelled as a list of resolved frames:
the list holds, in order, the frames from depth 2 upward for which
`stack.Caller(i).MarshalText()` succeeds; the end of the list models the
first frame for which it fails (`ErrNoFunc`), at which point the Go code
returns `stack.Call{}, nil`.

`fmt` verbs on a `stack.Call` are modelled by `sprintfPlusS` (`%+s`, the
full file path), `sprintfD` (`%d`, the line number) and `sprintfN`
(`%n`, the bare function name); on the zero `stack.Call` these verbs
print `%!s(NOFUNC)` / `%!d(NOFUNC)` / `%!n(NOFUNC)`.

JSON serialization (`encoding/json`) is modelled by `marshalEntry`,
honouring the `omitempty` struct tags: a string field is dropped when
empty, an int field when zero, a pointer field when nil, a map field
when nil or empty.  Keys of marshalled Go maps are emitted in sorted
order, as `encoding/json` does; struct fields are emitted in
declaration order.
-/

set_option autoImplicit false

namespace Stackdriver

/-- logrus log levels (`logrus.Level`).  The first six are the levels in
`levelsToSeverity`; `trace` stands for any level outside that table. -/
inductive Level where
  | debug
  | info
  | warning
  | errorL
  | fatal
  | panicL
  | trace
  deriving DecidableEq, Repr

/-- `levelsToSeverity`: the six-entry map from levels to severity
strings; a level missing from the Go map yields the zero value `""`. -/
def levelsToSeverity : Level → String
  | .debug => "DEBUG"
  | .info => "INFO"
  | .warning => "WARNING"
  | .errorL => "ERROR"
  | .fatal => "CRITICAL"
  | .panicL => "ALERT"
  | .trace => ""

/-- A dynamic Go value stored in a `map[string]interface{}` field map. -/
inductive Value where
  /-- a Go `string` -/
  | vStr (s : String) : Value
  /-- a Go `error` value; `fmt`'s `%s` renders its `Error()` text -/
  | vErr (msg : String) : Value
  /-- a Go `int`; `%s` renders it as `%!s(int=N)` -/
  | vInt (n : Int) : Value
  /-- a nested `map[string]interface\x7b\x7d` -/
  | vMap (m : List (String × Value)) : Value
  deriving Repr

/-- A `map[string]interface{}` as an association list with unique keys. -/
abbrev Fields := List (String × Value)

/-- Go map indexing `m[key]`: the value and the `ok` flag folded into an
`Option`. -/
def lookupField : Fields → String → Option Value
  | [], _ => none
  | p :: rest, key => if p.1 == key then some p.2 else lookupField rest key

/-- Go `delete(m, key)`. -/
def eraseKey (key : String) : Fields → Fields
  | [] => []
  | p :: rest => if p.1 == key then eraseKey key rest else p :: eraseKey key rest

/-- `getStringValue`: look up `key` and type-assert the value to
`string`; any failure yields `""`. -/
def getStringValue (key : String) (context : Fields) : String :=
  match lookupField context key with
  | some (Value.vStr s) => s
  | _ => ""

/-- Insertion into a key-sorted list, used to model the sorted key order
of `encoding/json` and `fmt` when printing Go maps. -/
def insertSorted (p : String × Value) : List (String × Value) → List (String × Value)
  | [] => [p]
  | q :: rest => if p.1 < q.1 then p :: q :: rest else q :: insertSorted p rest

/-- Sort a field map by key, as Go does when printing or marshalling a
map. -/
def sortFields : List (String × Value) → List (String × Value)
  | [] => []
  | p :: rest => insertSorted p (sortFields rest)

theorem sizeOf_insertSorted (p : String × Value) (l : List (String × Value)) :
    sizeOf (insertSorted p l) = 1 + sizeOf p + sizeOf l := by
  induction l with
  | nil => simp [insertSorted]
  | cons q rest ih =>
    simp only [insertSorted]
    split
    · simp
    · simp [ih]; omega

theorem sizeOf_sortFields (l : List (String × Value)) :
    sizeOf (sortFields l) = sizeOf l := by
  induction l with
  | nil => rfl
  | cons p rest ih => simp [sortFields, sizeOf_insertSorted, ih]

mutual
/-- `fmt`'s `%s` rendering of a dynamic value: strings print bare,
errors print their `Error()` text, ints print `%!s(int=N)`, maps print
`map[k1:v1 k2:v2]` with sorted keys. -/
def goFormat : Value → String
  | .vStr s => s
  | .vErr msg => msg
  | .vInt n => "%!s(int=" ++ toString n ++ ")"
  | .vMap m => "map[" ++ goFormatEntries (sortFields m) ++ "]"
  termination_by v => sizeOf v
  decreasing_by
    simp_wf
    rw [sizeOf_sortFields]
    omega

/-- Space-separated `key:value` renderings of map entries. -/
def goFormatEntries : List (String × Value) → String
  | [] => ""
  | [(k, v)] => k ++ ":" ++ goFormat v
  | (k, v) :: rest => k ++ ":" ++ goFormat v ++ " " ++ goFormatEntries rest
  termination_by l => sizeOf l
  decreasing_by
    all_goals simp_wf
    all_goals omega
end

/-- A call frame resolved by the `go-stack` library: the package path
printed by `%+k`, the file path printed by `%+s`, the line number
printed by `%d` and the bare function name printed by `%n`. -/
structure Frame where
  pkg : String
  file : String
  line : Nat
  fn : String
  deriving DecidableEq, Repr

/-- The characters after the first occurrence of `sep` in a character
list, or `none` when `sep` does not occur. -/
def afterFirstSep (sep : List Char) : List Char → Option (List Char)
  | [] => none
  | c :: rest =>
    if sep.isPrefixOf (c :: rest) then some ((c :: rest).drop sep.length)
    else afterFirstSep sep rest

/-- Lines 156-157: `parts := strings.SplitN(pkg, "/vendor/", 2);
pkg = parts[len(parts)-1]`.  `SplitN` with limit 2 splits around the
FIRST occurrence of the separator and leaves the remainder unsplit, so
the last part is the whole string when the separator does not occur and
everything after the first separator otherwise. -/
def stripVendor (pkg : String) : String :=
  match afterFirstSep "/vendor/".toList pkg.toList with
  | some rest => String.mk rest
  | none => pkg

/-- The Formatter configuration. -/
structure Formatter where
  Service : String
  Version : String
  StackSkip : List String
  deriving Repr

/-- `errorOrigin` (lines 137-162).  Walks the stack; for each resolvable
frame the vendor-normalized package path is compared against `StackSkip`
(the `skip` closure tests plain equality).  On the first frame whose
normalized package is not skipped it returns `(c, nil)`; when the stack
is exhausted (`MarshalText` fails) it returns `(stack.Call{}, nil)` —
note the error result is `nil` on BOTH paths.  The pair mirrors the Go
return values: the `Option Frame` is the `stack.Call` (with `none` for
the zero call) and the `Option String` is the `error` (with `none` for
`nil`). -/
def errorOrigin (stackSkip : List String) : List Frame → Option Frame × Option String
  | [] => (none, none)
  | fr :: rest =>
    let pkg := stripVendor fr.pkg
    if stackSkip.contains pkg then errorOrigin stackSkip rest
    else (some fr, none)

/-- `fmt.Sprintf("%+s", c)`: the frame's file path, or `%!s(NOFUNC)` for
the zero call. -/
def sprintfPlusS : Option Frame → String
  | some fr => fr.file
  | none => "%!s(NOFUNC)"

/-- `fmt.Sprintf("%d", c)`: the frame's line number in decimal, or
`%!d(NOFUNC)` for the zero call. -/
def sprintfD : Option Frame → String
  | some fr => toString fr.line
  | none => "%!d(NOFUNC)"

/-- `fmt.Sprintf("%n", c)`: the frame's bare function name, or
`%!n(NOFUNC)` for the zero call. -/
def sprintfN : Option Frame → String
  | some fr => fr.fn
  | none => "%!n(NOFUNC)"

/-- `strconv.ParseInt(s, 10, 64)` with the error discarded (`lineNumber,
_ := ...`): the parsed value on success, `0` on a syntax error.  The
only inputs arising here are unsigned decimals (line numbers printed by
`%d`, which fit in an int64) and `%!d(NOFUNC)`. -/
def parseInt10 (s : String) : Int :=
  let cs := s.toList
  if cs.isEmpty || !(cs.all fun c => c.isDigit) then 0
  else ((cs.foldl (fun acc c => acc * 10 + (c.toNat - 48)) 0 : Nat) : Int)

/-- `var DefaultSubjectKey = "X-Subject-Id"` (its default value). -/
def DefaultSubjectKey : String := "X-Subject-Id"

/-- `var DefaultOperationIdKey = "X-Request-Id"` (its default value). -/
def DefaultOperationIdKey : String := "X-Request-Id"

/-- `fieldNameTraceID = "ot-tracer-traceid"`. -/
def fieldNameTraceID : String := "ot-tracer-traceid"

/-- `fieldNameSpanID = "ot-tracer-spanid"`. -/
def fieldNameSpanID : String := "ot-tracer-spanid"

/-- The `serviceContext` struct. -/
structure ServiceContext where
  Service : String
  Version : String
  deriving DecidableEq, Repr

/-- The `reportLocation` struct. -/
structure ReportLocation where
  FilePath : String
  LineNumber : Int
  FunctionName : String
  deriving DecidableEq, Repr

/-- The `operation` struct (`First`/`Last` are `*bool` pointers). -/
structure Operation where
  Id : String
  Producer : String
  First : Option Bool
  Last : Option Bool
  deriving DecidableEq, Repr

/-- The `sourceLocation` struct (its `Line` is a string). -/
structure SourceLocation where
  File : String
  Line : String
  Function : String
  deriving DecidableEq, Repr

/-- The `context` struct.  `Data` and `HTTPRequest` are Go maps
(`HTTPRequest` nil when unset), `ReportLocation` a pointer. -/
structure Context where
  Data : Fields
  ReportLocation : Option ReportLocation
  HTTPRequest : Option Fields
  User : String
  deriving Repr

/-- The `entry` struct: the output envelope.  Pointer-typed Go fields
(`ServiceContext`, `Context`, `SourceLocation`, `Operation`) are
`Option`s, with `none` for a nil pointer. -/
structure Entry where
  Timestamp : String
  ServiceContext : Option ServiceContext
  Message : String
  Severity : String
  Context : Option Context
  Trace : String
  SpanID : String
  SourceLocation : Option SourceLocation
  Operation : Option Operation
  deriving Repr

/-- A logrus entry as seen by `Format`: its level, message and field
map. -/
structure LogEntry where
  Level : Level
  Message : String
  Data : Fields
  deriving Repr

/-- Lines 191-196: if the `error` field is present (any value), rewrite
the message to `fmt.Sprintf("%s: %s", e.Message, err)` and delete the
key; the returned pair is the final message and the updated map. -/
def extractError (msg : String) (d : Fields) : String × Fields :=
  match lookupField d "error" with
  | some err => (msg ++ ": " ++ goFormat err, eraseKey "error" d)
  | none => (msg, d)

/-- Lines 200-205: if the `httpRequest` field is present AND its value
type-asserts to `map[string]interface{}`, move it out of the map;
otherwise leave everything untouched. -/
def extractHTTPRequest (d : Fields) : Option Fields × Fields :=
  match lookupField d "httpRequest" with
  | some (Value.vMap req) => (some req, eraseKey "httpRequest" d)
  | _ => (none, d)

/-- The guard pattern of lines 208-211, 236-241, 244-247 and 248-251:
`if v := getStringValue(key, data); v != "" { ...; delete(data, key) }`.
Returns the extracted string (`""` when the guard fails) and the
updated map. -/
def extractStringKey (key : String) (d : Fields) : String × Fields :=
  let v := getStringValue key d
  if v != "" then (v, eraseKey key d) else (v, d)

/-- Lines 217-221: the `reportLocation` built from the `errorOrigin`
call result (`lineNumber, _ := strconv.ParseInt(fmt.Sprintf("%d", c),
10, 64)`). -/
def reportLocationFrom (c : Option Frame) : ReportLocation :=
  { FilePath := sprintfPlusS c
    LineNumber := parseInt10 (sprintfD c)
    FunctionName := sprintfN c }

/-- Lines 228-232: the `sourceLocation` built from the `errorOrigin`
call result; its `Line` is `fmt.Sprintf("%d", int(lineNumber))`. -/
def sourceLocationFrom (c : Option Frame) : SourceLocation :=
  { File := sprintfPlusS c
    Line := toString (parseInt10 (sprintfD c))
    Function := sprintfN c }

/-- `Format` (lines 165-259) up to JSON serialization: the output
envelope it hands to `json.Marshal`.  Besides the formatter
configuration and the logrus entry it takes the package-level
`skipTimestamp` flag, the current RFC3339 time string, and the call
stack consulted by `errorOrigin`.

`ee.Context.Data` aliases `e.Data`: the `delete` calls of the Go code
act on the caller's map, so the `Data` of the result is also the state
of the caller's field map after `Format` returns.

The Go code calls `errorOrigin` inside the severity switch; the model
computes it once up front, which is equivalent because it is a pure
function of the stack.  Both its results feed the `err == nil` guards of
lines 214 and 225 exactly as in the source. -/
def Format (f : Formatter) (skipTimestamp : Bool) (now : String)
    (stk : List Frame) (e : LogEntry) : Entry :=
  let severity := levelsToSeverity e.Level
  let timestamp := if !skipTimestamp then now else ""
  let errorTier := severity == "ERROR" || severity == "CRITICAL" || severity == "ALERT"
  let origin := errorOrigin f.StackSkip stk
  let p1 := if errorTier then extractError e.Message e.Data else (e.Message, e.Data)
  let p2 := if errorTier then extractHTTPRequest p1.2 else (none, p1.2)
  let p3 := if errorTier then extractStringKey DefaultSubjectKey p2.2 else ("", p2.2)
  let p4 := extractStringKey DefaultOperationIdKey p3.2
  let p5 := extractStringKey fieldNameTraceID p4.2
  let p6 := extractStringKey fieldNameSpanID p5.2
  { Timestamp := timestamp
    ServiceContext :=
      if errorTier then some { Service := f.Service, Version := f.Version } else none
    Message := p1.1
    Severity := severity
    Context := some
      { Data := p6.2
        ReportLocation :=
          if errorTier && origin.2.isNone then some (reportLocationFrom origin.1) else none
        HTTPRequest := p2.1
        User := p3.1 }
    Trace := p5.1
    SpanID := p6.1
    SourceLocation :=
      if !errorTier && origin.2.isNone then some (sourceLocationFrom origin.1) else none
    Operation :=
      if p4.1 != "" then
        some { Id := p4.1, Producer := "", First := none, Last := none }
      else none }

/-- A JSON value, as produced by `encoding/json`. -/
inductive Json where
  | str (s : String) : Json
  | num (n : Int) : Json
  | jbool (b : Bool) : Json
  | obj (fields : List (String × Json)) : Json
  deriving Repr

mutual
/-- `json.Marshal` of a dynamic field value: strings become JSON
strings, ints numbers, nested maps objects with sorted keys; an `error`
value such as `errors.errorString` has only unexported fields and
marshals to the empty object. -/
def marshalValue : Value → Json
  | .vStr s => .str s
  | .vErr _ => .obj []
  | .vInt n => .num n
  | .vMap m => .obj (marshalFields (sortFields m))
  termination_by v => sizeOf v
  decreasing_by
    simp_wf
    rw [sizeOf_sortFields]
    omega

/-- `json.Marshal` of the entries of a Go map (already key-sorted). -/
def marshalFields : List (String × Value) → List (String × Json)
  | [] => []
  | (k, v) :: rest => (k, marshalValue v) :: marshalFields rest
  termination_by l => sizeOf l
  decreasing_by
    all_goals simp_wf
    all_goals omega
end

/-- `json.Marshal` of a `map[string]interface{}` field: sorted keys,
marshalled values. -/
def marshalMap (d : Fields) : Json :=
  .obj (marshalFields (sortFields d))

/-- A struct field tagged `json:"k,omitempty"` of string type: dropped
when empty. -/
def jsonStrField (k s : String) : List (String × Json) :=
  if s != "" then [(k, Json.str s)] else []

/-- A struct field tagged `json:"k,omitempty"` of int type: dropped
when zero. -/
def jsonIntField (k : String) (n : Int) : List (String × Json) :=
  if n != 0 then [(k, Json.num n)] else []

/-- A struct field tagged `json:"k,omitempty"` of pointer type: dropped
only when nil. -/
def jsonPtrField {α : Type} (k : String) (f : α → Json) : Option α → List (String × Json)
  | some x => [(k, f x)]
  | none => []

/-- A struct field tagged `json:"k,omitempty"` of map type: dropped
when the map is empty. -/
def jsonMapField (k : String) (d : Fields) : List (String × Json) :=
  if d.isEmpty then [] else [(k, marshalMap d)]

/-- A struct field tagged `json:"k,omitempty"` of map type that may
also be nil: dropped when nil or empty. -/
def jsonOptMapField (k : String) : Option Fields → List (String × Json)
  | some d => jsonMapField k d
  | none => []

/-- A struct field tagged `json:"k,omitempty"` of `*bool` type: dropped
only when nil. -/
def jsonPtrBoolField (k : String) : Option Bool → List (String × Json)
  | some b => [(k, Json.jbool b)]
  | none => []

/-- `json.Marshal` of `serviceContext` (lines 50-53): both fields are
`omitempty` strings. -/
def marshalServiceContext (sc : ServiceContext) : Json :=
  .obj (jsonStrField "service" sc.Service ++ jsonStrField "version" sc.Version)

/-- `json.Marshal` of `reportLocation` (lines 55-59): `omitempty` drops
an empty string and a zero int. -/
def marshalReportLocation (rl : ReportLocation) : Json :=
  .obj (jsonStrField "filePath" rl.FilePath ++
    jsonIntField "lineNumber" rl.LineNumber ++
    jsonStrField "functionName" rl.FunctionName)

/-- `json.Marshal` of `sourceLocation` (lines 68-72): three `omitempty`
strings. -/
def marshalSourceLocation (sl : SourceLocation) : Json :=
  .obj (jsonStrField "file" sl.File ++
    jsonStrField "line" sl.Line ++
    jsonStrField "function" sl.Function)

/-- `json.Marshal` of `operation` (lines 61-66): two `omitempty`
strings and two `omitempty` `*bool` pointers. -/
def marshalOperation (op : Operation) : Json :=
  .obj (jsonStrField "id" op.Id ++
    jsonStrField "producer" op.Producer ++
    jsonPtrBoolField "first" op.First ++
    jsonPtrBoolField "last" op.Last)

/-- `json.Marshal` of `context` (lines 74-79): `Data` and `HTTPRequest`
are `omitempty` maps (dropped when nil or empty), `ReportLocation` an
`omitempty` pointer, `User` an `omitempty` string. -/
def marshalContext (c : Context) : Json :=
  .obj (jsonMapField "data" c.Data ++
    jsonPtrField "reportLocation" marshalReportLocation c.ReportLocation ++
    jsonOptMapField "httpRequest" c.HTTPRequest ++
    jsonStrField "user" c.User)

/-- `json.Marshal` of the `entry` envelope (lines 81-91 and 253), field
by field in struct declaration order, honouring every `omitempty`
tag. -/
def marshalEntry (ee : Entry) : Json :=
  .obj (jsonStrField "timestamp" ee.Timestamp ++
    jsonPtrField "serviceContext" marshalServiceContext ee.ServiceContext ++
    jsonStrField "message" ee.Message ++
    jsonStrField "severity" ee.Severity ++
    jsonPtrField "context" marshalContext ee.Context ++
    jsonStrField "logging.googleapis.com/trace" ee.Trace ++
    jsonStrField "logging.googleapis.com/span_id" ee.SpanID ++
    jsonPtrField "sourceLocation" marshalSourceLocation ee.SourceLocation ++
    jsonPtrField "operation" marshalOperation ee.Operation)

/-- Look a key up in a JSON object (the `ok` form of map indexing after
`json.Unmarshal`). -/
def getKey : Json → String → Option Json
  | .obj fs, k => (fs.find? (fun p => p.1 == k)).map (fun p => p.2)
  | _, _ => none

/-- Whether a serialized document has `k` as a key of its top-level
object. -/
def hasKey (j : Json) (k : String) : Bool :=
  (getKey j k).isSome

/-- Whether a serialized document has the given path of nested keys. -/
def hasKeyPath (j : Json) : List String → Bool
  | [] => true
  | k :: ks =>
    match getKey j k with
    | some j2 => hasKeyPath j2 ks
    | none => false

/-- The `context.data` the caller observes in the produced envelope;
since `ee.Context.Data` aliases `e.Data`, this is also the caller's
field map after `Format` returns. -/
def Entry.ctxData (ee : Entry) : Fields :=
  match ee.Context with
  | some c => c.Data
  | none => []

/-- The `context.user` of the produced envelope. -/
def Entry.ctxUser (ee : Entry) : String :=
  match ee.Context with
  | some c => c.User
  | none => ""

/-- The `context.httpRequest` of the produced envelope. -/
def Entry.ctxHTTPRequest (ee : Entry) : Option Fields :=
  match ee.Context with
  | some c => c.HTTPRequest
  | none => none

/-- The `context.reportLocation` of the produced envelope. -/
def Entry.ctxReportLocation (ee : Entry) : Option ReportLocation :=
  match ee.Context with
  | some c => c.ReportLocation
  | none => none

/-! ### Basic lemmas about the embedded operations -/

theorem errorOrigin_snd (skip : List String) (stk : List Frame) :
    (errorOrigin skip stk).2 = none := by
  induction stk with
  | nil => rfl
  | cons fr rest ih =>
    simp only [errorOrigin]
    split
    · exact ih
    · rfl

theorem errorOrigin_fst_eq_find? (skip : List String) (stk : List Frame) :
    (errorOrigin skip stk).1 =
      stk.find? (fun fr => !(skip.contains (stripVendor fr.pkg))) := by
  induction stk with
  | nil => rfl
  | cons fr rest ih =>
    by_cases h : stripVendor fr.pkg ∈ skip <;>
      simp [errorOrigin, List.find?, h, ih]

theorem lookupField_eraseKey_self (key : String) (d : Fields) :
    lookupField (eraseKey key d) key = none := by
  induction d with
  | nil => rfl
  | cons p rest ih =>
    by_cases h : p.1 = key <;> simp [eraseKey, lookupField, h, ih]

theorem lookupField_eraseKey_ne {k key : String} (h : k ≠ key) (d : Fields) :
    lookupField (eraseKey key d) k = lookupField d k := by
  induction d with
  | nil => rfl
  | cons p rest ih =>
    by_cases hp : p.1 = key
    · have hk : p.1 ≠ k := fun hkk => h (hkk ▸ hp)
      simp [eraseKey, lookupField, hp, hk, ih, Ne.symm h]
    · by_cases hk : p.1 = k <;>
        simp [eraseKey, lookupField, hp, hk, ih, h, Ne.symm h]

theorem extractError_snd_lookup {k : String} (h : k ≠ "error")
    (msg : String) (d : Fields) :
    lookupField (extractError msg d).2 k = lookupField d k := by
  unfold extractError
  cases lookupField d "error" with
  | some v => exact lookupField_eraseKey_ne h d
  | none => rfl

theorem extractHTTPRequest_snd_lookup {k : String} (h : k ≠ "httpRequest")
    (d : Fields) :
    lookupField (extractHTTPRequest d).2 k = lookupField d k := by
  unfold extractHTTPRequest
  cases hv : lookupField d "httpRequest" with
  | some v =>
    cases v with
    | vMap m => exact lookupField_eraseKey_ne h d
    | vStr s => rfl
    | vErr s => rfl
    | vInt n => rfl
  | none => rfl

theorem extractStringKey_snd_lookup {k key : String} (h : k ≠ key)
    (d : Fields) :
    lookupField (extractStringKey key d).2 k = lookupField d k := by
  simp only [extractStringKey]
  split
  · exact lookupField_eraseKey_ne h d
  · rfl

theorem extractStringKey_snd_lookup_self (key : String) (d : Fields) :
    lookupField (extractStringKey key d).2 key =
      if getStringValue key d != "" then none else lookupField d key := by
  simp only [extractStringKey]
  cases hguard : getStringValue key d != "" <;>
    simp [hguard, lookupField_eraseKey_self]

/-! ### Key-presence lemmas for the serialized form -/

theorem hasKey_obj_nil (k : String) : hasKey (Json.obj []) k = false := rfl

theorem hasKey_obj_append (l1 l2 : List (String × Json)) (k : String) :
    hasKey (Json.obj (l1 ++ l2)) k =
      (hasKey (Json.obj l1) k || hasKey (Json.obj l2) k) := by
  induction l1 with
  | nil => simp [hasKey, getKey]
  | cons p rest ih =>
    by_cases h : p.1 == k
    · simp [hasKey, getKey, List.find?, h]
    · simpa [hasKey, getKey, List.find?, h] using ih

theorem hasKey_jsonStrField (k1 s k : String) :
    hasKey (Json.obj (jsonStrField k1 s)) k = ((k1 == k) && (s != "")) := by
  unfold jsonStrField
  split <;> rename_i hs <;> simp [hasKey, getKey, List.find?, hs] <;>
    cases h : (k1 == k) <;> simp [h]

theorem hasKey_jsonIntField (k1 k : String) (n : Int) :
    hasKey (Json.obj (jsonIntField k1 n)) k = ((k1 == k) && (n != 0)) := by
  unfold jsonIntField
  split <;> rename_i hn <;> simp [hasKey, getKey, List.find?, hn] <;>
    cases h : (k1 == k) <;> simp [h]

theorem hasKey_jsonPtrField {α : Type} (k1 k : String) (f : α → Json)
    (o : Option α) :
    hasKey (Json.obj (jsonPtrField k1 f o)) k = ((k1 == k) && o.isSome) := by
  cases o <;> simp [jsonPtrField, hasKey, getKey, List.find?] <;>
    cases h : (k1 == k) <;> simp [h]

theorem hasKey_jsonMapField (k1 k : String) (d : Fields) :
    hasKey (Json.obj (jsonMapField k1 d)) k = ((k1 == k) && !d.isEmpty) := by
  unfold jsonMapField
  split <;> rename_i hd <;> simp [hasKey, getKey, List.find?, hd] <;>
    cases h : (k1 == k) <;> simp [h]

theorem hasKey_jsonOptMapField (k1 k : String) (o : Option Fields) :
    hasKey (Json.obj (jsonOptMapField k1 o)) k =
      ((k1 == k) && !(o.getD []).isEmpty) := by
  cases o with
  | some d => simpa [jsonOptMapField] using hasKey_jsonMapField k1 k d
  | none => simp [jsonOptMapField, hasKey, getKey]

theorem hasKey_jsonPtrBoolField (k1 k : String) (o : Option Bool) :
    hasKey (Json.obj (jsonPtrBoolField k1 o)) k = ((k1 == k) && o.isSome) := by
  cases o <;> simp [jsonPtrBoolField, hasKey, getKey, List.find?] <;>
    cases h : (k1 == k) <;> simp [h]

theorem getKey_obj_append (l1 l2 : List (String × Json)) (k : String) :
    getKey (Json.obj (l1 ++ l2)) k =
      (match getKey (Json.obj l1) k with
       | some v => some v
       | none => getKey (Json.obj l2) k) := by
  induction l1 with
  | nil => simp [getKey]
  | cons p rest ih =>
    by_cases h : p.1 == k <;> simp [getKey, List.find?, h] at * <;> simp [ih]

theorem getKey_jsonStrField (k1 s k : String) :
    getKey (Json.obj (jsonStrField k1 s)) k =
      (if (k1 == k) && (s != "") then some (Json.str s) else none) := by
  unfold jsonStrField
  cases hs : s != "" <;> cases h : (k1 == k) <;>
    simp [getKey, List.find?, hs, h]

theorem getKey_jsonPtrField {α : Type} (k1 k : String) (f : α → Json)
    (o : Option α) :
    getKey (Json.obj (jsonPtrField k1 f o)) k =
      (if (k1 == k) then o.map f else none) := by
  cases o <;> cases h : (k1 == k) <;>
    simp [jsonPtrField, getKey, List.find?, h]

/-- The nine top-level keys of the serialized envelope: each is present
exactly when the corresponding `entry` field is not at its
`omitempty` zero value. -/
theorem hasKey_marshalEntry (ee : Entry) :
    hasKey (marshalEntry ee) "timestamp" = (ee.Timestamp != "") ∧
    hasKey (marshalEntry ee) "serviceContext" = ee.ServiceContext.isSome ∧
    hasKey (marshalEntry ee) "message" = (ee.Message != "") ∧
    hasKey (marshalEntry ee) "severity" = (ee.Severity != "") ∧
    hasKey (marshalEntry ee) "context" = ee.Context.isSome ∧
    hasKey (marshalEntry ee) "logging.googleapis.com/trace" = (ee.Trace != "") ∧
    hasKey (marshalEntry ee) "logging.googleapis.com/span_id" = (ee.SpanID != "") ∧
    hasKey (marshalEntry ee) "sourceLocation" = ee.SourceLocation.isSome ∧
    hasKey (marshalEntry ee) "operation" = ee.Operation.isSome := by
  refine ⟨?_, ?_, ?_, ?_, ?_, ?_, ?_, ?_, ?_⟩ <;>
    simp [marshalEntry, hasKey_obj_append, hasKey_jsonStrField,
      hasKey_jsonPtrField]

/-- The keys of the serialized `context` object. -/
theorem hasKey_marshalContext (c : Context) :
    hasKey (marshalContext c) "data" = !c.Data.isEmpty ∧
    hasKey (marshalContext c) "reportLocation" = c.ReportLocation.isSome ∧
    hasKey (marshalContext c) "httpRequest" = !(c.HTTPRequest.getD []).isEmpty ∧
    hasKey (marshalContext c) "user" = (c.User != "") := by
  refine ⟨?_, ?_, ?_, ?_⟩ <;>
    simp [marshalContext, hasKey_obj_append, hasKey_jsonStrField,
      hasKey_jsonPtrField, hasKey_jsonMapField, hasKey_jsonOptMapField]

theorem getKey_marshalEntry_context (ee : Entry) :
    getKey (marshalEntry ee) "context" = ee.Context.map marshalContext := by
  cases hc : ee.Context <;>
    simp [marshalEntry, getKey_obj_append, getKey_jsonStrField,
      getKey_jsonPtrField, hc]

/-- `context.reportLocation` is a key path of the serialized output
exactly when the envelope carries a report location. -/
theorem hasKeyPath_context_reportLocation (ee : Entry) :
    hasKeyPath (marshalEntry ee) ["context", "reportLocation"] =
      ee.ctxReportLocation.isSome := by
  simp only [hasKeyPath, getKey_marshalEntry_context]
  cases hc : ee.Context with
  | none => simp [Entry.ctxReportLocation, hc]
  | some c =>
    simp only [Option.map_some, Entry.ctxReportLocation, hc]
    have h2 := (hasKey_marshalContext c).2.1
    rw [← h2]
    cases hrl : getKey (marshalContext c) "reportLocation" <;>
      simp [hasKey, hrl]

/-! ### The two severity tiers of `Format` -/

/-- `Format` on an error-tier level (the `severityError`,
`severityCritical`, `severityAlert` cases of the `switch`), with the
always-`nil` error result of `errorOrigin` already discharged. -/
theorem Format_eq_errorTier (f : Formatter) (skipTs : Bool) (now : String)
    (stk : List Frame) (lvl : Level) (msg : String) (data : Fields)
    (h : lvl = .errorL ∨ lvl = .fatal ∨ lvl = .panicL) :
    Format f skipTs now stk ⟨lvl, msg, data⟩ =
      { Timestamp := if !skipTs then now else ""
        ServiceContext := some { Service := f.Service, Version := f.Version }
        Message := (extractError msg data).1
        Severity := levelsToSeverity lvl
        Context := some
          { Data := (extractStringKey fieldNameSpanID
              (extractStringKey fieldNameTraceID
                (extractStringKey DefaultOperationIdKey
                  (extractStringKey DefaultSubjectKey
                    (extractHTTPRequest (extractError msg data).2).2).2).2).2).2
            ReportLocation :=
              some (reportLocationFrom (errorOrigin f.StackSkip stk).1)
            HTTPRequest := (extractHTTPRequest (extractError msg data).2).1
            User := (extractStringKey DefaultSubjectKey
              (extractHTTPRequest (extractError msg data).2).2).1 }
        Trace := (extractStringKey fieldNameTraceID
          (extractStringKey DefaultOperationIdKey
            (extractStringKey DefaultSubjectKey
              (extractHTTPRequest (extractError msg data).2).2).2).2).1
        SpanID := (extractStringKey fieldNameSpanID
          (extractStringKey fieldNameTraceID
            (extractStringKey DefaultOperationIdKey
              (extractStringKey DefaultSubjectKey
                (extractHTTPRequest (extractError msg data).2).2).2).2).2).1
        SourceLocation := none
        Operation :=
          if (extractStringKey DefaultOperationIdKey
              (extractStringKey DefaultSubjectKey
                (extractHTTPRequest (extractError msg data).2).2).2).1 != "" then
            some ⟨(extractStringKey DefaultOperationIdKey
              (extractStringKey DefaultSubjectKey
                (extractHTTPRequest (extractError msg data).2).2).2).1,
              "", none, none⟩
          else none } := by
  rcases h with h | h | h <;> subst h <;>
    simp [Format, levelsToSeverity, errorOrigin_snd]

/-- `Format` on a sub-error level (the `default` case of the `switch`,
including every level outside the severity table), with the
always-`nil` error result of `errorOrigin` already discharged. -/
theorem Format_eq_subError (f : Formatter) (skipTs : Bool) (now : String)
    (stk : List Frame) (lvl : Level) (msg : String) (data : Fields)
    (h : lvl = .debug ∨ lvl = .info ∨ lvl = .warning ∨ lvl = .trace) :
    Format f skipTs now stk ⟨lvl, msg, data⟩ =
      { Timestamp := if !skipTs then now else ""
        ServiceContext := none
        Message := msg
        Severity := levelsToSeverity lvl
        Context := some
          { Data := (extractStringKey fieldNameSpanID
              (extractStringKey fieldNameTraceID
                (extractStringKey DefaultOperationIdKey data).2).2).2
            ReportLocation := none
            HTTPRequest := none
            User := "" }
        Trace := (extractStringKey fieldNameTraceID
          (extractStringKey DefaultOperationIdKey data).2).1
        SpanID := (extractStringKey fieldNameSpanID
          (extractStringKey fieldNameTraceID
            (extractStringKey DefaultOperationIdKey data).2).2).1
        SourceLocation :=
          some (sourceLocationFrom (errorOrigin f.StackSkip stk).1)
        Operation :=
          if (extractStringKey DefaultOperationIdKey data).1 != "" then
            some ⟨(extractStringKey DefaultOperationIdKey data).1,
              "", none, none⟩
          else none } := by
  rcases h with h | h | h | h <;> subst h <;>
    simp [Format, levelsToSeverity, errorOrigin_snd]

/-! ### Case lemmas for the extraction steps -/

theorem extractError_of_none {msg : String} {d : Fields}
    (h : lookupField d "error" = none) :
    extractError msg d = (msg, d) := by
  unfold extractError
  rw [h]

theorem extractError_of_some {msg : String} {d : Fields} {v : Value}
    (h : lookupField d "error" = some v) :
    extractError msg d = (msg ++ ": " ++ goFormat v, eraseKey "error" d) := by
  unfold extractError
  rw [h]

theorem extractHTTPRequest_of_none {d : Fields}
    (h : lookupField d "httpRequest" = none) :
    extractHTTPRequest d = (none, d) := by
  unfold extractHTTPRequest
  rw [h]

theorem extractHTTPRequest_of_not_map {d : Fields} {v : Value}
    (h : lookupField d "httpRequest" = some v) (hnm : ∀ m, v ≠ Value.vMap m) :
    extractHTTPRequest d = (none, d) := by
  unfold extractHTTPRequest
  rw [h]
  cases v with
  | vStr s => rfl
  | vErr s => rfl
  | vInt n => rfl
  | vMap m => exact absurd rfl (hnm m)

theorem extractHTTPRequest_of_map {d : Fields} {m : List (String × Value)}
    (h : lookupField d "httpRequest" = some (Value.vMap m)) :
    extractHTTPRequest d = (some m, eraseKey "httpRequest" d) := by
  unfold extractHTTPRequest
  rw [h]

theorem getStringValue_of_lookup_str {d : Fields} {key s : String}
    (h : lookupField d key = some (Value.vStr s)) :
    getStringValue key d = s := by
  unfold getStringValue
  rw [h]

theorem getStringValue_of_lookup_none {d : Fields} {key : String}
    (h : lookupField d key = none) :
    getStringValue key d = "" := by
  unfold getStringValue
  rw [h]

theorem getStringValue_of_lookup_not_str {d : Fields} {key : String} {v : Value}
    (h : lookupField d key = some v) (hns : ∀ s, v ≠ Value.vStr s) :
    getStringValue key d = "" := by
  unfold getStringValue
  rw [h]
  cases v with
  | vStr s => exact absurd rfl (hns s)
  | vErr s => rfl
  | vInt n => rfl
  | vMap m => rfl

theorem extractStringKey_of_empty {d : Fields} {key : String}
    (h : getStringValue key d = "") :
    extractStringKey key d = ("", d) := by
  simp [extractStringKey, h]

theorem extractStringKey_of_str {d : Fields} {key s : String}
    (h : lookupField d key = some (Value.vStr s)) (hs : s ≠ "") :
    extractStringKey key d = (s, eraseKey key d) := by
  have hg : getStringValue key d = s := getStringValue_of_lookup_str h
  simp [extractStringKey, hg, hs]

/-- At error tier, `context.data` preserves every key other than the
six special keys. -/
theorem Format_ctxData_lookup_errorTier (f : Formatter) (skipTs : Bool)
    (now : String) (stk : List Frame) (lvl : Level) (msg : String)
    (data : Fields) (k : String)
    (hlvl : lvl = .errorL ∨ lvl = .fatal ∨ lvl = .panicL)
    (h1 : k ≠ "error") (h2 : k ≠ "httpRequest") (h3 : k ≠ DefaultSubjectKey)
    (h4 : k ≠ DefaultOperationIdKey) (h5 : k ≠ fieldNameTraceID)
    (h6 : k ≠ fieldNameSpanID) :
    lookupField (Format f skipTs now stk ⟨lvl, msg, data⟩).ctxData k =
      lookupField data k := by
  rw [Format_eq_errorTier f skipTs now stk lvl msg data hlvl]
  simp only [Entry.ctxData]
  rw [extractStringKey_snd_lookup h6, extractStringKey_snd_lookup h5,
    extractStringKey_snd_lookup h4, extractStringKey_snd_lookup h3,
    extractHTTPRequest_snd_lookup h2, extractError_snd_lookup h1]

/-- At sub-error tier, `context.data` preserves every key other than
the three cross-cutting keys. -/
theorem Format_ctxData_lookup_subError (f : Formatter) (skipTs : Bool)
    (now : String) (stk : List Frame) (lvl : Level) (msg : String)
    (data : Fields) (k : String)
    (hlvl : lvl = .debug ∨ lvl = .info ∨ lvl = .warning ∨ lvl = .trace)
    (h4 : k ≠ DefaultOperationIdKey) (h5 : k ≠ fieldNameTraceID)
    (h6 : k ≠ fieldNameSpanID) :
    lookupField (Format f skipTs now stk ⟨lvl, msg, data⟩).ctxData k =
      lookupField data k := by
  rw [Format_eq_subError f skipTs now stk lvl msg data hlvl]
  simp only [Entry.ctxData]
  rw [extractStringKey_snd_lookup h6, extractStringKey_snd_lookup h5,
    extractStringKey_snd_lookup h4]

/-! ### Claims -/

/-- C1 counterexample: with `stackSkip = ["c"]`, a frame whose package
path holds two vendoring markers is NOT skipped, because the code keeps
the portion after the FIRST marker (`"b/vendor/c"`), not after the last
(`"c"`); moreover the recorded `filePath` is the frame's full resolved
file path, not the normalized portion after any marker. -/
theorem claim1_counterexample :
    stripVendor "a/vendor/b/vendor/c" = "b/vendor/c" ∧
    ¬ stripVendor "a/vendor/b/vendor/c" = "c" ∧
    (errorOrigin ["c"]
        [⟨"a/vendor/b/vendor/c", "a/vendor/b/vendor/c/f.go", 7, "Fn"⟩]).1 =
      some ⟨"a/vendor/b/vendor/c", "a/vendor/b/vendor/c/f.go", 7, "Fn"⟩ ∧
    (Format ⟨"s", "v", ["c"]⟩ true ""
        [⟨"a/vendor/b/vendor/c", "a/vendor/b/vendor/c/f.go", 7, "Fn"⟩]
        ⟨.errorL, "m", []⟩).ctxReportLocation =
      some ⟨"a/vendor/b/vendor/c/f.go", 7, "Fn"⟩ :=
  ⟨by decide, by decide, by decide, by rfl⟩

/-- C1 (amended): during origin resolution the skip comparison uses the
portion of the package path after the FIRST `"/vendor/"` marker (the
whole path when none occurs) — a path with two markers keeps everything
after the first — and the recorded file path is the resolved frame's
file path, unchanged by the normalization. -/
theorem claim1_amended (f : Formatter) (skipTs : Bool) (now : String)
    (stk : List Frame) (lvl : Level) (msg : String) (data : Fields) (fr : Frame)
    (hlvl : lvl = .errorL ∨ lvl = .fatal ∨ lvl = .panicL)
    (hfr : (errorOrigin f.StackSkip stk).1 = some fr) :
    errorOrigin f.StackSkip stk =
      (stk.find? (fun g => !(f.StackSkip.contains (stripVendor g.pkg))), none) ∧
    stripVendor "a/vendor/b/vendor/c" = "b/vendor/c" ∧
    (Format f skipTs now stk ⟨lvl, msg, data⟩).ctxReportLocation =
      some (reportLocationFrom (some fr)) ∧
    (reportLocationFrom (some fr)).FilePath = fr.file := by
  refine ⟨?_, by decide, ?_, rfl⟩
  · rw [Prod.ext_iff]
    exact ⟨errorOrigin_fst_eq_find? _ _, errorOrigin_snd _ _⟩
  · rw [Format_eq_errorTier f skipTs now stk lvl msg data hlvl]
    simp [Entry.ctxReportLocation, hfr]

/-- C1 amended witness at a concrete error-level call. -/
theorem claim1_amended_witness :
    (Format ⟨"s", "v", ["sk"]⟩ true "" [⟨"main", "main/app.go", 42, "run"⟩]
        ⟨.errorL, "m", []⟩).ctxReportLocation =
      some (reportLocationFrom (some ⟨"main", "main/app.go", 42, "run"⟩)) :=
  (claim1_amended ⟨"s", "v", ["sk"]⟩ true "" [⟨"main", "main/app.go", 42, "run"⟩]
    .errorL "m" [] ⟨"main", "main/app.go", 42, "run"⟩ (Or.inl rfl) (by decide)).2.2.1

/-- C2 code-bug demonstration: when every frame of the stack is skipped
(the walk exhausts the stack), `errorOrigin` returns the zero call with
a NIL error, so the `err == nil` guards of `Format` pass and the
location field is populated with `NOFUNC` placeholder text and
serialized — at error tier `context.reportLocation` is present in the
output, and at sub-error tier `sourceLocation` is — where the
specification says the location field is simply omitted. -/
theorem claim2_code_bug_eval :
    errorOrigin ["github.com/sirupsen/logrus"]
        [⟨"github.com/sirupsen/logrus", "github.com/sirupsen/logrus/entry.go", 300, "log"⟩] =
      (none, none) ∧
    (Format ⟨"test", "0.1", ["github.com/sirupsen/logrus"]⟩ true ""
        [⟨"github.com/sirupsen/logrus", "github.com/sirupsen/logrus/entry.go", 300, "log"⟩]
        ⟨.errorL, "boom", []⟩).ctxReportLocation =
      some ⟨"%!s(NOFUNC)", 0, "%!n(NOFUNC)"⟩ ∧
    hasKeyPath
      (marshalEntry (Format ⟨"test", "0.1", ["github.com/sirupsen/logrus"]⟩ true ""
        [⟨"github.com/sirupsen/logrus", "github.com/sirupsen/logrus/entry.go", 300, "log"⟩]
        ⟨.errorL, "boom", []⟩)) ["context", "reportLocation"] = true ∧
    (Format ⟨"test", "0.1", ["github.com/sirupsen/logrus"]⟩ true ""
        [⟨"github.com/sirupsen/logrus", "github.com/sirupsen/logrus/entry.go", 300, "log"⟩]
        ⟨.info, "boom", []⟩).SourceLocation =
      some ⟨"%!s(NOFUNC)", "0", "%!n(NOFUNC)"⟩ :=
  ⟨by decide, by rfl, by rfl, by rfl⟩

/-- C3 counterexample: at info level with the operation-id key present
with a non-empty string value, the caller's field map (aliased as
`context.data` by `Format`) has lost the key after the call. -/
theorem claim3_counterexample :
    (Format ⟨"s", "v", []⟩ true "" []
        ⟨.info, "m", [("X-Request-Id", Value.vStr "abc")]⟩).ctxData = [] ∧
    ¬ ([("X-Request-Id", Value.vStr "abc")] : Fields) = [] :=
  ⟨rfl, by simp⟩

/-- C3 (amended): `Format` does mutate the caller's aliased field map,
but only by deleting the special keys it extracts (`error`,
`httpRequest`, the subject-id, operation-id and the two tracing keys);
every other key retains exactly its original value after the call. -/
theorem claim3_amended (f : Formatter) (skipTs : Bool) (now : String)
    (stk : List Frame) (e : LogEntry) (k : String)
    (h1 : k ≠ "error") (h2 : k ≠ "httpRequest") (h3 : k ≠ DefaultSubjectKey)
    (h4 : k ≠ DefaultOperationIdKey) (h5 : k ≠ fieldNameTraceID)
    (h6 : k ≠ fieldNameSpanID) :
    lookupField (Format f skipTs now stk e).ctxData k = lookupField e.Data k := by
  obtain ⟨lvl, msg, data⟩ := e
  cases lvl with
  | errorL =>
    exact Format_ctxData_lookup_errorTier f skipTs now stk _ msg data k
      (Or.inl rfl) h1 h2 h3 h4 h5 h6
  | fatal =>
    exact Format_ctxData_lookup_errorTier f skipTs now stk _ msg data k
      (Or.inr (Or.inl rfl)) h1 h2 h3 h4 h5 h6
  | panicL =>
    exact Format_ctxData_lookup_errorTier f skipTs now stk _ msg data k
      (Or.inr (Or.inr rfl)) h1 h2 h3 h4 h5 h6
  | debug =>
    exact Format_ctxData_lookup_subError f skipTs now stk _ msg data k
      (Or.inl rfl) h4 h5 h6
  | info =>
    exact Format_ctxData_lookup_subError f skipTs now stk _ msg data k
      (Or.inr (Or.inl rfl)) h4 h5 h6
  | warning =>
    exact Format_ctxData_lookup_subError f skipTs now stk _ msg data k
      (Or.inr (Or.inr (Or.inl rfl))) h4 h5 h6
  | trace =>
    exact Format_ctxData_lookup_subError f skipTs now stk _ msg data k
      (Or.inr (Or.inr (Or.inr rfl))) h4 h5 h6

/-- C3 amended witness: a non-special key keeps its value through an
error-level call. -/
theorem claim3_amended_witness :
    lookupField (Format ⟨"s", "v", []⟩ true "" []
        ⟨.errorL, "m", [("foo", Value.vStr "bar")]⟩).ctxData "foo" =
      lookupField [("foo", Value.vStr "bar")] "foo" :=
  claim3_amended ⟨"s", "v", []⟩ true "" []
    ⟨.errorL, "m", [("foo", Value.vStr "bar")]⟩ "foo"
    (by decide) (by decide) (by decide) (by decide) (by decide) (by decide)

/-- C4 counterexample: an empty record at info level with an
unresolvable origin still serializes a `context` key (as the empty
object, as the repository's own example output documents), and an
error-tier record with empty service and version still serializes a
`serviceContext` key. -/
theorem claim4_counterexample :
    hasKey (marshalEntry (Format ⟨"s", "v", []⟩ true "" []
      ⟨.info, "m", []⟩)) "context" = true ∧
    hasKey (marshalEntry (Format ⟨"", "", []⟩ true "" []
      ⟨.errorL, "m", []⟩)) "serviceContext" = true :=
  ⟨rfl, rfl⟩

/-- C4 (amended): every optional field of the envelope at its
`omitempty` zero value is omitted from the serialized JSON — except
that `Format` always allocates the `context` object, and for error-tier
levels the `serviceContext` object, so those two keys are always
present (possibly as empty objects). -/
theorem claim4_amended :
    (∀ ee : Entry,
      hasKey (marshalEntry ee) "timestamp" = (ee.Timestamp != "") ∧
      hasKey (marshalEntry ee) "serviceContext" = ee.ServiceContext.isSome ∧
      hasKey (marshalEntry ee) "message" = (ee.Message != "") ∧
      hasKey (marshalEntry ee) "severity" = (ee.Severity != "") ∧
      hasKey (marshalEntry ee) "context" = ee.Context.isSome ∧
      hasKey (marshalEntry ee) "logging.googleapis.com/trace" = (ee.Trace != "") ∧
      hasKey (marshalEntry ee) "logging.googleapis.com/span_id" = (ee.SpanID != "") ∧
      hasKey (marshalEntry ee) "sourceLocation" = ee.SourceLocation.isSome ∧
      hasKey (marshalEntry ee) "operation" = ee.Operation.isSome) ∧
    (∀ (f : Formatter) (skipTs : Bool) (now : String) (stk : List Frame)
      (e : LogEntry), (Format f skipTs now stk e).Context.isSome = true) ∧
    (∀ (f : Formatter) (skipTs : Bool) (now : String) (stk : List Frame)
      (msg : String) (data : Fields),
      hasKey (marshalEntry (Format f skipTs now stk
        ⟨.errorL, msg, data⟩)) "serviceContext" = true ∧
      hasKey (marshalEntry (Format f skipTs now stk
        ⟨.fatal, msg, data⟩)) "serviceContext" = true ∧
      hasKey (marshalEntry (Format f skipTs now stk
        ⟨.panicL, msg, data⟩)) "serviceContext" = true) := by
  refine ⟨fun ee => hasKey_marshalEntry ee, ?_, ?_⟩
  · intro f skipTs now stk e
    obtain ⟨lvl, msg, data⟩ := e
    cases lvl <;> rfl
  · intro f skipTs now stk msg data
    refine ⟨?_, ?_, ?_⟩ <;>
      rw [(hasKey_marshalEntry _).2.1,
        Format_eq_errorTier f skipTs now stk _ msg data (by simp)] <;> rfl

/-- C5: for debug/info/warning records the serialized output carries
`sourceLocation` (in particular whenever an origin is resolvable) and
never `context.reportLocation` or `serviceContext`; for
error/fatal/panic records it carries `serviceContext`,
`context.reportLocation` whenever an origin is resolvable, and never a
top-level `sourceLocation`. -/
theorem claim5_location_exclusivity (f : Formatter) (skipTs : Bool)
    (now : String) (stk : List Frame) (msg : String) (data : Fields)
    (lvl : Level) :
    ((lvl = .debug ∨ lvl = .info ∨ lvl = .warning) →
      ((errorOrigin f.StackSkip stk).1.isSome = true →
        hasKey (marshalEntry (Format f skipTs now stk ⟨lvl, msg, data⟩))
          "sourceLocation" = true) ∧
      hasKeyPath (marshalEntry (Format f skipTs now stk ⟨lvl, msg, data⟩))
        ["context", "reportLocation"] = false ∧
      hasKey (marshalEntry (Format f skipTs now stk ⟨lvl, msg, data⟩))
        "serviceContext" = false) ∧
    ((lvl = .errorL ∨ lvl = .fatal ∨ lvl = .panicL) →
      hasKey (marshalEntry (Format f skipTs now stk ⟨lvl, msg, data⟩))
        "serviceContext" = true ∧
      ((errorOrigin f.StackSkip stk).1.isSome = true →
        hasKeyPath (marshalEntry (Format f skipTs now stk ⟨lvl, msg, data⟩))
          ["context", "reportLocation"] = true) ∧
      hasKey (marshalEntry (Format f skipTs now stk ⟨lvl, msg, data⟩))
        "sourceLocation" = false) := by
  constructor
  · intro hl
    have hl4 : lvl = .debug ∨ lvl = .info ∨ lvl = .warning ∨ lvl = .trace := by
      rcases hl with h | h | h
    -- regroup the three-way disjunction into the four-way one
      · exact Or.inl h
      · exact Or.inr (Or.inl h)
      · exact Or.inr (Or.inr (Or.inl h))
    rw [Format_eq_subError f skipTs now stk lvl msg data hl4]
    refine ⟨fun _ => ?_, ?_, ?_⟩
    · rw [(hasKey_marshalEntry _).2.2.2.2.2.2.2.1]
      rfl
    · rw [hasKeyPath_context_reportLocation]
      rfl
    · rw [(hasKey_marshalEntry _).2.1]
      rfl
  · intro hl
    rw [Format_eq_errorTier f skipTs now stk lvl msg data hl]
    refine ⟨?_, fun _ => ?_, ?_⟩
    · rw [(hasKey_marshalEntry _).2.1]
      rfl
    · rw [hasKeyPath_context_reportLocation]
      rfl
    · rw [(hasKey_marshalEntry _).2.2.2.2.2.2.2.1]
      rfl

/-- C5 witness at concrete info- and error-level calls. -/
theorem claim5_witness :
    hasKey (marshalEntry (Format ⟨"s", "v", []⟩ true ""
      [⟨"main", "main.go", 1, "main"⟩] ⟨.info, "m", []⟩)) "serviceContext" = false ∧
    hasKey (marshalEntry (Format ⟨"s", "v", []⟩ true ""
      [⟨"main", "main.go", 1, "main"⟩] ⟨.errorL, "m", []⟩)) "serviceContext" = true :=
  ⟨((claim5_location_exclusivity ⟨"s", "v", []⟩ true ""
      [⟨"main", "main.go", 1, "main"⟩] "m" [] .info).1
      (Or.inr (Or.inl rfl))).2.2,
   ((claim5_location_exclusivity ⟨"s", "v", []⟩ true ""
      [⟨"main", "main.go", 1, "main"⟩] "m" [] .errorL).2
      (Or.inl rfl)).1⟩

/-- C6: at error tier a malformed `httpRequest` (present but not a
mapping) or subject-id (present but not a string) is silently ignored:
no extraction happens, the field stays untouched in `context.data`, and
no failure is raised (`Format` is total on representable values). -/
theorem claim6_malformed_fields (f : Formatter) (skipTs : Bool)
    (now : String) (stk : List Frame) (lvl : Level) (msg : String)
    (data : Fields) (v : Value)
    (hlvl : lvl = .errorL ∨ lvl = .fatal ∨ lvl = .panicL) :
    ((lookupField data "httpRequest" = some v ∧ (∀ m, v ≠ Value.vMap m)) →
      (Format f skipTs now stk ⟨lvl, msg, data⟩).ctxHTTPRequest = none ∧
      lookupField (Format f skipTs now stk ⟨lvl, msg, data⟩).ctxData
        "httpRequest" = some v) ∧
    ((lookupField data DefaultSubjectKey = some v ∧ (∀ s, v ≠ Value.vStr s)) →
      (Format f skipTs now stk ⟨lvl, msg, data⟩).ctxUser = "" ∧
      lookupField (Format f skipTs now stk ⟨lvl, msg, data⟩).ctxData
        DefaultSubjectKey = some v) := by
  constructor
  · rintro ⟨hv, hnm⟩
    rw [Format_eq_errorTier f skipTs now stk lvl msg data hlvl]
    have hv1 : lookupField (extractError msg data).2 "httpRequest" = some v :=
      (extractError_snd_lookup (by decide) msg data).trans hv
    constructor
    · simp only [Entry.ctxHTTPRequest]
      rw [extractHTTPRequest_of_not_map hv1 hnm]
    · simp only [Entry.ctxData]
      rw [extractStringKey_snd_lookup (by decide),
        extractStringKey_snd_lookup (by decide),
        extractStringKey_snd_lookup (by decide),
        extractStringKey_snd_lookup (by decide),
        extractHTTPRequest_of_not_map hv1 hnm]
      exact hv1
  · rintro ⟨hw, hns⟩
    rw [Format_eq_errorTier f skipTs now stk lvl msg data hlvl]
    have hw1 : lookupField (extractError msg data).2 DefaultSubjectKey = some v :=
      (extractError_snd_lookup (by decide) msg data).trans hw
    have hw2 : lookupField (extractHTTPRequest (extractError msg data).2).2
        DefaultSubjectKey = some v :=
      (extractHTTPRequest_snd_lookup (by decide) _).trans hw1
    have hsk : extractStringKey DefaultSubjectKey
        (extractHTTPRequest (extractError msg data).2).2 =
        ("", (extractHTTPRequest (extractError msg data).2).2) :=
      extractStringKey_of_empty (getStringValue_of_lookup_not_str hw2 hns)
    constructor
    · simp only [Entry.ctxUser]
      rw [hsk]
    · simp only [Entry.ctxData]
      rw [extractStringKey_snd_lookup (by decide),
        extractStringKey_snd_lookup (by decide),
        extractStringKey_snd_lookup (by decide), hsk]
      exact hw2

/-- C6 witness: a string-valued `httpRequest` and an int-valued
subject-id pass through untouched at error level. -/
theorem claim6_witness :
    ((Format ⟨"s", "v", []⟩ true "" [] ⟨.errorL, "m",
        [("httpRequest", Value.vStr "x"), ("X-Subject-Id", Value.vInt 5)]⟩).ctxHTTPRequest = none ∧
      lookupField (Format ⟨"s", "v", []⟩ true "" [] ⟨.errorL, "m",
        [("httpRequest", Value.vStr "x"), ("X-Subject-Id", Value.vInt 5)]⟩).ctxData
        "httpRequest" = some (Value.vStr "x")) ∧
    ((Format ⟨"s", "v", []⟩ true "" [] ⟨.errorL, "m",
        [("httpRequest", Value.vStr "x"), ("X-Subject-Id", Value.vInt 5)]⟩).ctxUser = "" ∧
      lookupField (Format ⟨"s", "v", []⟩ true "" [] ⟨.errorL, "m",
        [("httpRequest", Value.vStr "x"), ("X-Subject-Id", Value.vInt 5)]⟩).ctxData
        DefaultSubjectKey = some (Value.vInt 5)) :=
  ⟨(claim6_malformed_fields ⟨"s", "v", []⟩ true "" [] .errorL "m"
      [("httpRequest", Value.vStr "x"), ("X-Subject-Id", Value.vInt 5)]
      (Value.vStr "x") (Or.inl rfl)).1
      ⟨by rfl, fun m h => Value.noConfusion h⟩,
   (claim6_malformed_fields ⟨"s", "v", []⟩ true "" [] .errorL "m"
      [("httpRequest", Value.vStr "x"), ("X-Subject-Id", Value.vInt 5)]
      (Value.vInt 5) (Or.inl rfl)).2
      ⟨by rfl, fun s h => Value.noConfusion h⟩⟩

/-- At error tier, the map entering the cross-cutting extraction steps
agrees with the original field map on every key other than `error`,
`httpRequest` and the subject-id key. -/
theorem branch_lookup_errorTier {k : String} (msg : String) (data : Fields)
    (h1 : k ≠ "error") (h2 : k ≠ "httpRequest") (h3 : k ≠ DefaultSubjectKey) :
    lookupField (extractStringKey DefaultSubjectKey
      (extractHTTPRequest (extractError msg data).2).2).2 k =
      lookupField data k := by
  rw [extractStringKey_snd_lookup h3, extractHTTPRequest_snd_lookup h2,
    extractError_snd_lookup h1]

/-- The operation-id guard fires on a non-empty string value: the id is
extracted and the key is gone after the remaining cross-cutting
steps. -/
theorem crosscut_op {d0 : Fields} {s : String} (hs : s ≠ "")
    (hop : lookupField d0 DefaultOperationIdKey = some (Value.vStr s)) :
    extractStringKey DefaultOperationIdKey d0 =
      (s, eraseKey DefaultOperationIdKey d0) ∧
    lookupField (extractStringKey fieldNameSpanID
      (extractStringKey fieldNameTraceID
        (extractStringKey DefaultOperationIdKey d0).2).2).2
      DefaultOperationIdKey = none := by
  have h1 := extractStringKey_of_str hop hs
  refine ⟨h1, ?_⟩
  rw [extractStringKey_snd_lookup (by decide),
    extractStringKey_snd_lookup (by decide), h1]
  exact lookupField_eraseKey_self _ _

/-- The trace-id guard fires on a non-empty string value. -/
theorem crosscut_trace {d0 : Fields} {s : String} (hs : s ≠ "")
    (htr : lookupField d0 fieldNameTraceID = some (Value.vStr s)) :
    extractStringKey fieldNameTraceID
      (extractStringKey DefaultOperationIdKey d0).2 =
      (s, eraseKey fieldNameTraceID
        (extractStringKey DefaultOperationIdKey d0).2) ∧
    lookupField (extractStringKey fieldNameSpanID
      (extractStringKey fieldNameTraceID
        (extractStringKey DefaultOperationIdKey d0).2).2).2
      fieldNameTraceID = none := by
  have h0 : lookupField (extractStringKey DefaultOperationIdKey d0).2
      fieldNameTraceID = some (Value.vStr s) :=
    (extractStringKey_snd_lookup (by decide) d0).trans htr
  have h1 := extractStringKey_of_str h0 hs
  refine ⟨h1, ?_⟩
  rw [extractStringKey_snd_lookup (by decide), h1]
  exact lookupField_eraseKey_self _ _

/-- The span-id guard fires on a non-empty string value. -/
theorem crosscut_span {d0 : Fields} {s : String} (hs : s ≠ "")
    (hsp : lookupField d0 fieldNameSpanID = some (Value.vStr s)) :
    extractStringKey fieldNameSpanID
      (extractStringKey fieldNameTraceID
        (extractStringKey DefaultOperationIdKey d0).2).2 =
      (s, eraseKey fieldNameSpanID
        (extractStringKey fieldNameTraceID
          (extractStringKey DefaultOperationIdKey d0).2).2) ∧
    lookupField (extractStringKey fieldNameSpanID
      (extractStringKey fieldNameTraceID
        (extractStringKey DefaultOperationIdKey d0).2).2).2
      fieldNameSpanID = none := by
  have h0 : lookupField (extractStringKey DefaultOperationIdKey d0).2
      fieldNameSpanID = some (Value.vStr s) :=
    (extractStringKey_snd_lookup (by decide) d0).trans hsp
  have h0b : lookupField (extractStringKey fieldNameTraceID
      (extractStringKey DefaultOperationIdKey d0).2).2
      fieldNameSpanID = some (Value.vStr s) :=
    (extractStringKey_snd_lookup (by decide) _).trans h0
  have h1 := extractStringKey_of_str h0b hs
  refine ⟨h1, ?_⟩
  rw [h1]
  exact lookupField_eraseKey_self _ _

/-- Non-empty-string cross-cutting extraction, error tier. -/
theorem Format_crosscut_errorTier (f : Formatter) (skipTs : Bool)
    (now : String) (stk : List Frame) (lvl : Level) (msg : String)
    (data : Fields) (s : String) (hs : s ≠ "")
    (hlvl : lvl = .errorL ∨ lvl = .fatal ∨ lvl = .panicL) :
    (lookupField data DefaultOperationIdKey = some (Value.vStr s) →
      (Format f skipTs now stk ⟨lvl, msg, data⟩).Operation =
        some ⟨s, "", none, none⟩ ∧
      lookupField (Format f skipTs now stk ⟨lvl, msg, data⟩).ctxData
        DefaultOperationIdKey = none) ∧
    (lookupField data fieldNameTraceID = some (Value.vStr s) →
      (Format f skipTs now stk ⟨lvl, msg, data⟩).Trace = s ∧
      lookupField (Format f skipTs now stk ⟨lvl, msg, data⟩).ctxData
        fieldNameTraceID = none) ∧
    (lookupField data fieldNameSpanID = some (Value.vStr s) →
      (Format f skipTs now stk ⟨lvl, msg, data⟩).SpanID = s ∧
      lookupField (Format f skipTs now stk ⟨lvl, msg, data⟩).ctxData
        fieldNameSpanID = none) := by
  rw [Format_eq_errorTier f skipTs now stk lvl msg data hlvl]
  refine ⟨?_, ?_, ?_⟩
  · intro hop
    have hop0 := (branch_lookup_errorTier msg data
      (by decide) (by decide) (by decide)).trans hop
    obtain ⟨h1, h2⟩ := crosscut_op hs hop0
    constructor
    · simp only [h1]
      simp [hs]
    · simp only [Entry.ctxData]
      exact h2
  · intro htr
    have htr0 := (branch_lookup_errorTier msg data
      (by decide) (by decide) (by decide)).trans htr
    obtain ⟨h1, h2⟩ := crosscut_trace hs htr0
    constructor
    · simp only [h1]
    · simp only [Entry.ctxData]
      exact h2
  · intro hsp
    have hsp0 := (branch_lookup_errorTier msg data
      (by decide) (by decide) (by decide)).trans hsp
    obtain ⟨h1, h2⟩ := crosscut_span hs hsp0
    constructor
    · simp only [h1]
    · simp only [Entry.ctxData]
      exact h2

/-- Non-empty-string cross-cutting extraction, sub-error tier. -/
theorem Format_crosscut_subError (f : Formatter) (skipTs : Bool)
    (now : String) (stk : List Frame) (lvl : Level) (msg : String)
    (data : Fields) (s : String) (hs : s ≠ "")
    (hlvl : lvl = .debug ∨ lvl = .info ∨ lvl = .warning ∨ lvl = .trace) :
    (lookupField data DefaultOperationIdKey = some (Value.vStr s) →
      (Format f skipTs now stk ⟨lvl, msg, data⟩).Operation =
        some ⟨s, "", none, none⟩ ∧
      lookupField (Format f skipTs now stk ⟨lvl, msg, data⟩).ctxData
        DefaultOperationIdKey = none) ∧
    (lookupField data fieldNameTraceID = some (Value.vStr s) →
      (Format f skipTs now stk ⟨lvl, msg, data⟩).Trace = s ∧
      lookupField (Format f skipTs now stk ⟨lvl, msg, data⟩).ctxData
        fieldNameTraceID = none) ∧
    (lookupField data fieldNameSpanID = some (Value.vStr s) →
      (Format f skipTs now stk ⟨lvl, msg, data⟩).SpanID = s ∧
      lookupField (Format f skipTs now stk ⟨lvl, msg, data⟩).ctxData
        fieldNameSpanID = none) := by
  rw [Format_eq_subError f skipTs now stk lvl msg data hlvl]
  refine ⟨?_, ?_, ?_⟩
  · intro hop
    obtain ⟨h1, h2⟩ := crosscut_op hs hop
    constructor
    · simp only [h1]
      simp [hs]
    · simp only [Entry.ctxData]
      exact h2
  · intro htr
    obtain ⟨h1, h2⟩ := crosscut_trace hs htr
    constructor
    · simp only [h1]
    · simp only [Entry.ctxData]
      exact h2
  · intro hsp
    obtain ⟨h1, h2⟩ := crosscut_span hs hsp
    constructor
    · simp only [h1]
    · simp only [Entry.ctxData]
      exact h2

/-- C7 counterexample: the operation-id key present WITH A STRING VALUE
— the empty string — is neither moved to `operation.id` nor removed
from `context.data`; the guard requires a non-empty string. -/
theorem claim7_counterexample :
    (Format ⟨"s", "v", []⟩ true "" []
      ⟨.info, "m", [("X-Request-Id", Value.vStr "")]⟩).Operation = none ∧
    lookupField (Format ⟨"s", "v", []⟩ true "" []
      ⟨.info, "m", [("X-Request-Id", Value.vStr "")]⟩).ctxData
      "X-Request-Id" = some (Value.vStr "") :=
  ⟨rfl, rfl⟩

/-- C7 (amended): for every record, regardless of level, the configured
operation-id key with a NON-EMPTY string value is moved to
`operation.id` and removed from `context.data`, and likewise
`ot-tracer-traceid` to the top-level trace field and `ot-tracer-spanid`
to the top-level span field. -/
theorem claim7_amended (f : Formatter) (skipTs : Bool) (now : String)
    (stk : List Frame) (e : LogEntry) (s : String) (hs : s ≠ "") :
    (lookupField e.Data DefaultOperationIdKey = some (Value.vStr s) →
      (Format f skipTs now stk e).Operation = some ⟨s, "", none, none⟩ ∧
      lookupField (Format f skipTs now stk e).ctxData
        DefaultOperationIdKey = none) ∧
    (lookupField e.Data fieldNameTraceID = some (Value.vStr s) →
      (Format f skipTs now stk e).Trace = s ∧
      lookupField (Format f skipTs now stk e).ctxData
        fieldNameTraceID = none) ∧
    (lookupField e.Data fieldNameSpanID = some (Value.vStr s) →
      (Format f skipTs now stk e).SpanID = s ∧
      lookupField (Format f skipTs now stk e).ctxData
        fieldNameSpanID = none) := by
  obtain ⟨lvl, msg, data⟩ := e
  cases lvl with
  | errorL =>
    exact Format_crosscut_errorTier f skipTs now stk _ msg data s hs (Or.inl rfl)
  | fatal =>
    exact Format_crosscut_errorTier f skipTs now stk _ msg data s hs
      (Or.inr (Or.inl rfl))
  | panicL =>
    exact Format_crosscut_errorTier f skipTs now stk _ msg data s hs
      (Or.inr (Or.inr rfl))
  | debug =>
    exact Format_crosscut_subError f skipTs now stk _ msg data s hs (Or.inl rfl)
  | info =>
    exact Format_crosscut_subError f skipTs now stk _ msg data s hs
      (Or.inr (Or.inl rfl))
  | warning =>
    exact Format_crosscut_subError f skipTs now stk _ msg data s hs
      (Or.inr (Or.inr (Or.inl rfl)))
  | trace =>
    exact Format_crosscut_subError f skipTs now stk _ msg data s hs
      (Or.inr (Or.inr (Or.inr rfl)))

/-- C7 amended witness: the three tracing keys are extracted at a
concrete info-level call. -/
theorem claim7_amended_witness :
    ((Format ⟨"s", "v", []⟩ true "" [] ⟨.info, "m",
        [("X-Request-Id", Value.vStr "op1")]⟩).Operation =
      some ⟨"op1", "", none, none⟩ ∧
    lookupField (Format ⟨"s", "v", []⟩ true "" [] ⟨.info, "m",
        [("X-Request-Id", Value.vStr "op1")]⟩).ctxData
      DefaultOperationIdKey = none) ∧
    ((Format ⟨"s", "v", []⟩ true "" [] ⟨.errorL, "m",
        [("ot-tracer-traceid", Value.vStr "tr1")]⟩).Trace = "tr1" ∧
    lookupField (Format ⟨"s", "v", []⟩ true "" [] ⟨.errorL, "m",
        [("ot-tracer-traceid", Value.vStr "tr1")]⟩).ctxData
      fieldNameTraceID = none) :=
  ⟨(claim7_amended ⟨"s", "v", []⟩ true "" []
      ⟨.info, "m", [("X-Request-Id", Value.vStr "op1")]⟩ "op1" (by decide)).1
      (by rfl),
   (claim7_amended ⟨"s", "v", []⟩ true "" []
      ⟨.errorL, "m", [("ot-tracer-traceid", Value.vStr "tr1")]⟩ "tr1"
      (by decide)).2.1 (by rfl)⟩

/-- C8: at error tier, a present `error` field is appended to the
message as `"<message>: <error>"` (the `fmt` `%s` rendering of the
value) and the `error` key is gone from `context.data`. -/
theorem claim8_error_merge (f : Formatter) (skipTs : Bool) (now : String)
    (stk : List Frame) (lvl : Level) (msg : String) (data : Fields)
    (v : Value)
    (hlvl : lvl = .errorL ∨ lvl = .fatal ∨ lvl = .panicL)
    (hv : lookupField data "error" = some v) :
    (Format f skipTs now stk ⟨lvl, msg, data⟩).Message =
      msg ++ ": " ++ goFormat v ∧
    lookupField (Format f skipTs now stk ⟨lvl, msg, data⟩).ctxData
      "error" = none := by
  rw [Format_eq_errorTier f skipTs now stk lvl msg data hlvl]
  constructor
  · simp only [extractError_of_some hv]
  · simp only [Entry.ctxData]
    rw [extractStringKey_snd_lookup (by decide),
      extractStringKey_snd_lookup (by decide),
      extractStringKey_snd_lookup (by decide),
      extractStringKey_snd_lookup (by decide),
      extractHTTPRequest_snd_lookup (by decide),
      extractError_of_some hv]
    exact lookupField_eraseKey_self _ _

/-- C8 witness: message `"my log entry"` with field
`error = "test error"` at error level yields message
`"my log entry: test error"` and no `error` key in the data. -/
theorem claim8_witness :
    (Format ⟨"t", "0.1", []⟩ true "" [] ⟨.errorL, "my log entry",
      [("error", Value.vStr "test error")]⟩).Message =
      "my log entry: test error" ∧
    lookupField (Format ⟨"t", "0.1", []⟩ true "" [] ⟨.errorL, "my log entry",
      [("error", Value.vStr "test error")]⟩).ctxData "error" = none := by
  have h := claim8_error_merge ⟨"t", "0.1", []⟩ true "" [] .errorL "my log entry"
    [("error", Value.vStr "test error")] (Value.vStr "test error")
    (Or.inl rfl) (by rfl)
  exact ⟨h.1.trans (by simp [goFormat]), h.2⟩

/-- When the operation-id key holds the empty string, the guard does
not fire: nothing is extracted and the key survives the remaining
cross-cutting steps. -/
theorem crosscut_op_empty {d0 : Fields}
    (hop : lookupField d0 DefaultOperationIdKey = some (Value.vStr "")) :
    extractStringKey DefaultOperationIdKey d0 = ("", d0) ∧
    lookupField (extractStringKey fieldNameSpanID
      (extractStringKey fieldNameTraceID
        (extractStringKey DefaultOperationIdKey d0).2).2).2
      DefaultOperationIdKey = some (Value.vStr "") := by
  have h1 := extractStringKey_of_empty (getStringValue_of_lookup_str hop)
  refine ⟨h1, ?_⟩
  rw [extractStringKey_snd_lookup (by decide),
    extractStringKey_snd_lookup (by decide), h1]
  exact hop

/-- When the trace-id key holds the empty string, the guard does not
fire. -/
theorem crosscut_trace_empty {d0 : Fields}
    (htr : lookupField d0 fieldNameTraceID = some (Value.vStr "")) :
    extractStringKey fieldNameTraceID
      (extractStringKey DefaultOperationIdKey d0).2 =
      ("", (extractStringKey DefaultOperationIdKey d0).2) ∧
    lookupField (extractStringKey fieldNameSpanID
      (extractStringKey fieldNameTraceID
        (extractStringKey DefaultOperationIdKey d0).2).2).2
      fieldNameTraceID = some (Value.vStr "") := by
  have h0 : lookupField (extractStringKey DefaultOperationIdKey d0).2
      fieldNameTraceID = some (Value.vStr "") :=
    (extractStringKey_snd_lookup (by decide) d0).trans htr
  have h1 := extractStringKey_of_empty (getStringValue_of_lookup_str h0)
  refine ⟨h1, ?_⟩
  rw [extractStringKey_snd_lookup (by decide), h1]
  exact h0

/-- When the span-id key holds the empty string, the guard does not
fire. -/
theorem crosscut_span_empty {d0 : Fields}
    (hsp : lookupField d0 fieldNameSpanID = some (Value.vStr "")) :
    extractStringKey fieldNameSpanID
      (extractStringKey fieldNameTraceID
        (extractStringKey DefaultOperationIdKey d0).2).2 =
      ("", (extractStringKey fieldNameTraceID
        (extractStringKey DefaultOperationIdKey d0).2).2) ∧
    lookupField (extractStringKey fieldNameSpanID
      (extractStringKey fieldNameTraceID
        (extractStringKey DefaultOperationIdKey d0).2).2).2
      fieldNameSpanID = some (Value.vStr "") := by
  have h0 : lookupField (extractStringKey DefaultOperationIdKey d0).2
      fieldNameSpanID = some (Value.vStr "") :=
    (extractStringKey_snd_lookup (by decide) d0).trans hsp
  have h0b : lookupField (extractStringKey fieldNameTraceID
      (extractStringKey DefaultOperationIdKey d0).2).2
      fieldNameSpanID = some (Value.vStr "") :=
    (extractStringKey_snd_lookup (by decide) _).trans h0
  have h1 := extractStringKey_of_empty (getStringValue_of_lookup_str h0b)
  refine ⟨h1, ?_⟩
  rw [h1]
  exact h0b

/-- Empty-string special keys are ignored, error tier. -/
theorem Format_empty_strings_errorTier (f : Formatter) (skipTs : Bool)
    (now : String) (stk : List Frame) (lvl : Level) (msg : String)
    (data : Fields)
    (hlvl : lvl = .errorL ∨ lvl = .fatal ∨ lvl = .panicL) :
    (lookupField data DefaultSubjectKey = some (Value.vStr "") →
      (Format f skipTs now stk ⟨lvl, msg, data⟩).ctxUser = "" ∧
      lookupField (Format f skipTs now stk ⟨lvl, msg, data⟩).ctxData
        DefaultSubjectKey = some (Value.vStr "")) ∧
    (lookupField data DefaultOperationIdKey = some (Value.vStr "") →
      (Format f skipTs now stk ⟨lvl, msg, data⟩).Operation = none ∧
      lookupField (Format f skipTs now stk ⟨lvl, msg, data⟩).ctxData
        DefaultOperationIdKey = some (Value.vStr "")) ∧
    (lookupField data fieldNameTraceID = some (Value.vStr "") →
      (Format f skipTs now stk ⟨lvl, msg, data⟩).Trace = "" ∧
      lookupField (Format f skipTs now stk ⟨lvl, msg, data⟩).ctxData
        fieldNameTraceID = some (Value.vStr "")) ∧
    (lookupField data fieldNameSpanID = some (Value.vStr "") →
      (Format f skipTs now stk ⟨lvl, msg, data⟩).SpanID = "" ∧
      lookupField (Format f skipTs now stk ⟨lvl, msg, data⟩).ctxData
        fieldNameSpanID = some (Value.vStr "")) := by
  rw [Format_eq_errorTier f skipTs now stk lvl msg data hlvl]
  refine ⟨?_, ?_, ?_, ?_⟩
  · intro hw
    have hw1 : lookupField (extractError msg data).2 DefaultSubjectKey =
        some (Value.vStr "") :=
      (extractError_snd_lookup (by decide) msg data).trans hw
    have hw2 : lookupField (extractHTTPRequest (extractError msg data).2).2
        DefaultSubjectKey = some (Value.vStr "") :=
      (extractHTTPRequest_snd_lookup (by decide) _).trans hw1
    have hsk := extractStringKey_of_empty (getStringValue_of_lookup_str hw2)
    constructor
    · simp only [Entry.ctxUser]
      rw [hsk]
    · simp only [Entry.ctxData]
      rw [extractStringKey_snd_lookup (by decide),
        extractStringKey_snd_lookup (by decide),
        extractStringKey_snd_lookup (by decide), hsk]
      exact hw2
  · intro hop
    have hop0 := (branch_lookup_errorTier msg data
      (by decide) (by decide) (by decide)).trans hop
    obtain ⟨h1, h2⟩ := crosscut_op_empty hop0
    constructor
    · simp only [h1]
      simp
    · simp only [Entry.ctxData]
      exact h2
  · intro htr
    have htr0 := (branch_lookup_errorTier msg data
      (by decide) (by decide) (by decide)).trans htr
    obtain ⟨h1, h2⟩ := crosscut_trace_empty htr0
    constructor
    · simp only [h1]
    · simp only [Entry.ctxData]
      exact h2
  · intro hsp
    have hsp0 := (branch_lookup_errorTier msg data
      (by decide) (by decide) (by decide)).trans hsp
    obtain ⟨h1, h2⟩ := crosscut_span_empty hsp0
    constructor
    · simp only [h1]
    · simp only [Entry.ctxData]
      exact h2

/-- Empty-string special keys are ignored, sub-error tier. -/
theorem Format_empty_strings_subError (f : Formatter) (skipTs : Bool)
    (now : String) (stk : List Frame) (lvl : Level) (msg : String)
    (data : Fields)
    (hlvl : lvl = .debug ∨ lvl = .info ∨ lvl = .warning ∨ lvl = .trace) :
    (lookupField data DefaultSubjectKey = some (Value.vStr "") →
      (Format f skipTs now stk ⟨lvl, msg, data⟩).ctxUser = "" ∧
      lookupField (Format f skipTs now stk ⟨lvl, msg, data⟩).ctxData
        DefaultSubjectKey = some (Value.vStr "")) ∧
    (lookupField data DefaultOperationIdKey = some (Value.vStr "") →
      (Format f skipTs now stk ⟨lvl, msg, data⟩).Operation = none ∧
      lookupField (Format f skipTs now stk ⟨lvl, msg, data⟩).ctxData
        DefaultOperationIdKey = some (Value.vStr "")) ∧
    (lookupField data fieldNameTraceID = some (Value.vStr "") →
      (Format f skipTs now stk ⟨lvl, msg, data⟩).Trace = "" ∧
      lookupField (Format f skipTs now stk ⟨lvl, msg, data⟩).ctxData
        fieldNameTraceID = some (Value.vStr "")) ∧
    (lookupField data fieldNameSpanID = some (Value.vStr "") →
      (Format f skipTs now stk ⟨lvl, msg, data⟩).SpanID = "" ∧
      lookupField (Format f skipTs now stk ⟨lvl, msg, data⟩).ctxData
        fieldNameSpanID = some (Value.vStr "")) := by
  rw [Format_eq_subError f skipTs now stk lvl msg data hlvl]
  refine ⟨?_, ?_, ?_, ?_⟩
  · intro hw
    constructor
    · rfl
    · simp only [Entry.ctxData]
      rw [extractStringKey_snd_lookup (by decide),
        extractStringKey_snd_lookup (by decide),
        extractStringKey_snd_lookup (by decide)]
      exact hw
  · intro hop
    obtain ⟨h1, h2⟩ := crosscut_op_empty hop
    constructor
    · simp only [h1]
      simp
    · simp only [Entry.ctxData]
      exact h2
  · intro htr
    obtain ⟨h1, h2⟩ := crosscut_trace_empty htr
    constructor
    · simp only [h1]
    · simp only [Entry.ctxData]
      exact h2
  · intro hsp
    obtain ⟨h1, h2⟩ := crosscut_span_empty hsp
    constructor
    · simp only [h1]
    · simp only [Entry.ctxData]
      exact h2

/-- C9: a special key holding the EMPTY string is treated as absent:
the value is not moved to its dedicated output location and the key is
not removed from `context.data` — extraction requires a non-empty
string, not merely a string. -/
theorem claim9_empty_strings (f : Formatter) (skipTs : Bool) (now : String)
    (stk : List Frame) (e : LogEntry) :
    (lookupField e.Data DefaultSubjectKey = some (Value.vStr "") →
      (Format f skipTs now stk e).ctxUser = "" ∧
      lookupField (Format f skipTs now stk e).ctxData
        DefaultSubjectKey = some (Value.vStr "")) ∧
    (lookupField e.Data DefaultOperationIdKey = some (Value.vStr "") →
      (Format f skipTs now stk e).Operation = none ∧
      lookupField (Format f skipTs now stk e).ctxData
        DefaultOperationIdKey = some (Value.vStr "")) ∧
    (lookupField e.Data fieldNameTraceID = some (Value.vStr "") →
      (Format f skipTs now stk e).Trace = "" ∧
      lookupField (Format f skipTs now stk e).ctxData
        fieldNameTraceID = some (Value.vStr "")) ∧
    (lookupField e.Data fieldNameSpanID = some (Value.vStr "") →
      (Format f skipTs now stk e).SpanID = "" ∧
      lookupField (Format f skipTs now stk e).ctxData
        fieldNameSpanID = some (Value.vStr "")) := by
  obtain ⟨lvl, msg, data⟩ := e
  cases lvl with
  | errorL =>
    exact Format_empty_strings_errorTier f skipTs now stk _ msg data (Or.inl rfl)
  | fatal =>
    exact Format_empty_strings_errorTier f skipTs now stk _ msg data
      (Or.inr (Or.inl rfl))
  | panicL =>
    exact Format_empty_strings_errorTier f skipTs now stk _ msg data
      (Or.inr (Or.inr rfl))
  | debug =>
    exact Format_empty_strings_subError f skipTs now stk _ msg data (Or.inl rfl)
  | info =>
    exact Format_empty_strings_subError f skipTs now stk _ msg data
      (Or.inr (Or.inl rfl))
  | warning =>
    exact Format_empty_strings_subError f skipTs now stk _ msg data
      (Or.inr (Or.inr (Or.inl rfl)))
  | trace =>
    exact Format_empty_strings_subError f skipTs now stk _ msg data
      (Or.inr (Or.inr (Or.inr rfl)))

/-- C9 witness: an empty-string operation id at error level is neither
extracted nor removed. -/
theorem claim9_witness :
    (Format ⟨"s", "v", []⟩ true "" []
      ⟨.errorL, "m", [("X-Request-Id", Value.vStr "")]⟩).Operation = none ∧
    lookupField (Format ⟨"s", "v", []⟩ true "" []
      ⟨.errorL, "m", [("X-Request-Id", Value.vStr "")]⟩).ctxData
      DefaultOperationIdKey = some (Value.vStr "") :=
  (claim9_empty_strings ⟨"s", "v", []⟩ true "" []
    ⟨.errorL, "m", [("X-Request-Id", Value.vStr "")]⟩).2.1 (by rfl)

/-- C10: a level outside the six-entry severity table (modelled by the
trace level) takes the sub-error branch: empty severity (omitted from
the output), no `serviceContext`, no error/httpRequest/subject-id
extraction, and `sourceLocation` populated from the resolved origin. -/
theorem claim10_unmapped_level (f : Formatter) (skipTs : Bool)
    (now : String) (stk : List Frame) (msg : String) (data : Fields) :
    (Format f skipTs now stk ⟨.trace, msg, data⟩).Severity = "" ∧
    hasKey (marshalEntry (Format f skipTs now stk ⟨.trace, msg, data⟩))
      "severity" = false ∧
    (Format f skipTs now stk ⟨.trace, msg, data⟩).ServiceContext = none ∧
    hasKey (marshalEntry (Format f skipTs now stk ⟨.trace, msg, data⟩))
      "serviceContext" = false ∧
    (Format f skipTs now stk ⟨.trace, msg, data⟩).Message = msg ∧
    (Format f skipTs now stk ⟨.trace, msg, data⟩).ctxHTTPRequest = none ∧
    (Format f skipTs now stk ⟨.trace, msg, data⟩).ctxUser = "" ∧
    lookupField (Format f skipTs now stk ⟨.trace, msg, data⟩).ctxData
      "error" = lookupField data "error" ∧
    lookupField (Format f skipTs now stk ⟨.trace, msg, data⟩).ctxData
      "httpRequest" = lookupField data "httpRequest" ∧
    lookupField (Format f skipTs now stk ⟨.trace, msg, data⟩).ctxData
      DefaultSubjectKey = lookupField data DefaultSubjectKey ∧
    (Format f skipTs now stk ⟨.trace, msg, data⟩).SourceLocation =
      some (sourceLocationFrom (errorOrigin f.StackSkip stk).1) := by
  have h4 := Format_eq_subError f skipTs now stk .trace msg data
    (Or.inr (Or.inr (Or.inr rfl)))
  refine ⟨?_, ?_, ?_, ?_, ?_, ?_, ?_, ?_, ?_, ?_, ?_⟩
  · rw [h4]
    rfl
  · rw [(hasKey_marshalEntry _).2.2.2.1, h4]
    rfl
  · rw [h4]
  · rw [(hasKey_marshalEntry _).2.1, h4]
    rfl
  · rw [h4]
  · rw [h4]
    rfl
  · rw [h4]
    rfl
  · exact Format_ctxData_lookup_subError f skipTs now stk .trace msg data
      "error" (Or.inr (Or.inr (Or.inr rfl))) (by decide) (by decide) (by decide)
  · exact Format_ctxData_lookup_subError f skipTs now stk .trace msg data
      "httpRequest" (Or.inr (Or.inr (Or.inr rfl))) (by decide) (by decide)
      (by decide)
  · exact Format_ctxData_lookup_subError f skipTs now stk .trace msg data
      DefaultSubjectKey (Or.inr (Or.inr (Or.inr rfl))) (by decide) (by decide)
      (by decide)
  · rw [h4]

end Stackdriver
